import Mathlib

/-!
Shallow embedding of the GramIQ Farm Finance service (src/main.py) and
verification of the frozen behavioural claims about it.

Text is modelled as `List Char` (Python `str`); monetary amounts as `ℚ`
(Python `float` fields, whose arithmetic on the values the claims speak
about is exact); the chart renderer, PDF layout engine, database engine
and filesystem are external collaborators, modelled at their call
boundaries (the slice values handed to the pie chart, the flowable
element list handed to the layout engine, the row list ordered by the
query, the filename → bytes mapping of the reports directory).
-/

namespace GramIQ

/-- Python strings, modelled as lists of characters. -/
abbrev Chars := List Char

/-- File contents, modelled as byte lists. -/
abbrev Bytes := List Nat

/-- `class ExpenseItem(BaseModel)` from src/main.py: category, amount,
date, optional description (default empty). -/
structure ExpenseItem where
  category : Chars
  amount : ℚ
  date : Chars
  description : Chars
  deriving DecidableEq

/-- `class IncomeItem(BaseModel)` from src/main.py: same shape as
`ExpenseItem`. -/
structure IncomeItem where
  category : Chars
  amount : ℚ
  date : Chars
  description : Chars
  deriving DecidableEq

/-- `class FarmData(BaseModel)` from src/main.py. -/
structure FarmData where
  farmer_name : Chars
  crop_name : Chars
  season : Chars
  total_acres : ℚ
  sowing_date : Chars
  harvest_date : Chars
  location : Chars
  total_production : ℚ
  expenses : List ExpenseItem
  incomes : List IncomeItem
  deriving DecidableEq

/-! ### Chart renderer (`generate_charts`)

The matplotlib calls are external; the logic of the function is the
choice of the slice values handed to `ax.pie`, which is what we model. -/

/-- `generate_charts(income_total, expense_total)`: builds
`sizes = [income_total, expense_total]` and replaces it by `[1, 1]`
when `sum(sizes) == 0`, then renders a pie chart of `sizes`.  We return
the slice values passed to `ax.pie`. -/
def generate_charts (income_total expense_total : ℚ) : List ℚ :=
  let sizes : List ℚ := [income_total, expense_total]
  if sizes.sum = 0 then [1, 1] else sizes

/-! ### Number formatting

`create_and_save_pdf` renders the four summary metrics with the Python
format `f"INR {x:,.2f}"` (currency label, thousands separators, two
decimals) and the per-row amounts with the default format `f"{x}"`
(plain numeric text).  We model both as functions `ℚ → Chars`. -/

/-- The character for a decimal digit `d < 10`. -/
def digitChar (d : Nat) : Char := Char.ofNat (48 + d)

/-- Decimal digits of `n`, most significant first, by fuelled division;
empty for `n = 0` (the caller special-cases zero). -/
def natToDigitsGo : Nat → Nat → Chars
  | 0, _ => []
  | fuel + 1, n =>
    if n = 0 then [] else natToDigitsGo fuel (n / 10) ++ [digitChar (n % 10)]

/-- Decimal digits of `n`, most significant first; `"0"` for zero. -/
def natToDigits (n : Nat) : Chars :=
  if n = 0 then ['0'] else natToDigitsGo n n

/-- Insert a comma after every three characters of a reversed digit
string (thousands grouping, working from the least significant end). -/
def groupRev : Chars → Chars
  | a :: b :: c :: d :: rest => a :: b :: c :: ',' :: groupRev (d :: rest)
  | l => l

/-- Thousands grouping of a digit string (most significant first). -/
def groupDigits (ds : Chars) : Chars := (groupRev ds.reverse).reverse

/-- Model of the Python format `f"{x:,.2f}"`: sign, thousands-grouped
integer part, and exactly two decimal digits of the value rounded to
cents. -/
def formatCommas2 (x : ℚ) : Chars :=
  let cents : ℤ := round (x * 100)
  let n : Nat := cents.natAbs
  (if cents < 0 then ['-'] else []) ++
    groupDigits (natToDigits (n / 100)) ++
    ['.', digitChar (n % 100 / 10), digitChar (n % 10)]

/-- Model of the summary-table currency format `f"INR {x:,.2f}"`. -/
def formatINR (x : ℚ) : Chars := ("INR ").data ++ formatCommas2 x

/-- Fuelled decimal expansion of a fraction `0 ≤ x < 1`, most
significant digit first, stopping at zero remainder. -/
def fracDigitsGo : Nat → ℚ → Chars
  | 0, _ => []
  | fuel + 1, x =>
    if x = 0 then [] else
      digitChar (Int.toNat ⌊x * 10⌋) :: fracDigitsGo fuel (x * 10 - ⌊x * 10⌋)

/-- Model of the per-row amount format `f"{x}"` (Python `str` of a
float): sign, integer part, a decimal point and the fractional digits
(at least one, as Python always prints a fractional part for a float;
capped at 17 significant places like a double's repr). -/
def plainAmount (x : ℚ) : Chars :=
  let a : ℚ := |x|
  let fd := fracDigitsGo 17 (a - ⌊a⌋)
  (if x < 0 then ['-'] else []) ++ natToDigits (Int.toNat ⌊a⌋) ++
    ['.'] ++ (if fd = [] then ['0'] else fd)

/-! ### Document composer (`create_and_save_pdf`) -/

/-- A reportlab flowable appended to `elements` in
`create_and_save_pdf`: logo image, spacer, paragraph, table (rows of
text cells) or the pie-chart image (carrying its slice values). -/
inductive Element where
  | image (source : Chars)
  | spacer
  | paragraph (text : Chars)
  | table (rows : List (List Chars))
  | chart (sizes : List ℚ)
  deriving DecidableEq

/-- `total_inc = sum(i.amount for i in data.incomes)`. -/
def total_inc (data : FarmData) : ℚ := (data.incomes.map IncomeItem.amount).sum

/-- `total_exp = sum(e.amount for e in data.expenses)`. -/
def total_exp (data : FarmData) : ℚ := (data.expenses.map ExpenseItem.amount).sum

/-- `profit = total_inc - total_exp`. -/
def profit (data : FarmData) : ℚ := total_inc data - total_exp data

/-- `cost_per_acre = total_exp / data.total_acres if data.total_acres > 0 else 0`. -/
def cost_per_acre (data : FarmData) : ℚ :=
  if 0 < data.total_acres then total_exp data / data.total_acres else 0

/-- The `summary_data` rows of the financial-summary table. -/
def summary_data (data : FarmData) : List (List Chars) :=
  [[("Financial Metrics").data, ("Value").data],
   [("Total Income").data, formatINR (total_inc data)],
   [("Total Expense").data, formatINR (total_exp data)],
   [("Net Profit/Loss").data, formatINR (profit data)],
   [("Cost of Cultivation / Acre").data, formatINR (cost_per_acre data)]]

/-- The `e_data` rows of the expense table: header plus one row per
expense with category, date and the plain-formatted amount. -/
def e_data (data : FarmData) : List (List Chars) :=
  [("Category").data, ("Date").data, ("Amount").data] ::
    data.expenses.map (fun e => [e.category, e.date, plainAmount e.amount])

/-- The `i_data` rows of the income table: same shape as `e_data`. -/
def i_data (data : FarmData) : List (List Chars) :=
  [("Category").data, ("Date").data, ("Amount").data] ::
    data.incomes.map (fun i => [i.category, i.date, plainAmount i.amount])

/-- `clean_name = data.farmer_name.replace(" ", "_")`: a single-character
replacement, i.e. a character map. -/
def clean_name (data : FarmData) : Chars :=
  data.farmer_name.map (fun c => if c = ' ' then '_' else c)

/-- `filename = f"{clean_name}_{data.crop_name}_{timestamp}.pdf"`.  The
timestamp (`datetime.now().strftime("%Y%m%d_%H%M%S")`) is passed in as
a parameter since it reads the clock. -/
def make_filename (data : FarmData) (timestamp : Chars) : Chars :=
  clean_name data ++ '_' :: data.crop_name ++ '_' :: timestamp ++ (".pdf").data

/-- `create_and_save_pdf(data)`: computes the filename and the ordered
flowable list handed to `doc.build`.  `logo` is the outcome of
`RLImage("static/logo.png", ...)` inside the `try` block: `some src` if
the asset loads, `none` for any failure there (swallowed by
`except: pass`). -/
def create_and_save_pdf (data : FarmData) (timestamp : Chars)
    (logo : Option Chars) : Chars × List Element :=
  let filename := make_filename data timestamp
  let logoElems : List Element :=
    match logo with
    | some src => [Element.image src]
    | none => []
  let elements : List Element :=
    logoElems ++
    [Element.spacer,
     Element.paragraph (("Farm Finance Report: ").data ++ data.crop_name),
     Element.paragraph (("<b>Farmer:</b> ").data ++ data.farmer_name ++
       (" | <b>Location:</b> ").data ++ data.location),
     Element.spacer,
     Element.table (summary_data data),
     Element.spacer,
     Element.chart (generate_charts (total_inc data) (total_exp data)),
     Element.spacer,
     Element.paragraph (("Expense Breakdown").data)] ++
    (if data.expenses = [] then [] else [Element.table (e_data data)]) ++
    [Element.spacer,
     Element.paragraph (("Income Breakdown").data)] ++
    (if data.incomes = [] then [] else [Element.table (i_data data)])
  (filename, elements)

/-! ### Record store (SQLite `reports` table) -/

/-- One row of the `reports` table created by `init_db`. -/
structure ReportRow where
  id : Nat
  farmer_name : Chars
  crop_name : Chars
  filename : Chars
  json_data : Chars
  created_at : Chars
  deriving DecidableEq

/-- The `reports` table: its rows in insertion order, and the next
value of the `AUTOINCREMENT` id counter. -/
structure ReportsDB where
  rows : List ReportRow
  nextId : Nat
  deriving DecidableEq

/-- The `INSERT INTO reports ... VALUES (?, ?, ?, ?, ?)` statement in
`generate_report_endpoint`: appends a row with the next autoincrement
id.  Returns the new state and the id of the inserted row. -/
def insertReport (db : ReportsDB) (farmer crop fname json created : Chars) :
    ReportsDB × Nat :=
  let row : ReportRow :=
    ⟨db.nextId, farmer, crop, fname, json, created⟩
  (⟨db.rows ++ [row], db.nextId + 1⟩, db.nextId)

/-- The comparison implementing `ORDER BY id DESC`: `a` may appear
before `b` when `b.id ≤ a.id`. -/
def rowDescLe (a b : ReportRow) : Bool := decide (b.id ≤ a.id)

/-- `get_reports` (`GET /api/reports`): `SELECT * FROM reports ORDER BY
id DESC`, modelled as a stable sort of the stored rows under the
descending-id comparison. -/
def get_reports (db : ReportsDB) : List ReportRow :=
  db.rows.mergeSort rowDescLe

/-! ### File archive and `download_report` (`GET /reports/{filename}`) -/

/-- A response from `download_report`: a `FileResponse` (media type,
suggested download name, content) or a `JSONResponse` (status code and
a JSON object body of string fields). -/
inductive Response where
  | file (media_type : Chars) (fname : Chars) (content : Bytes)
  | json (status_code : Nat) (body : List (Chars × Chars))
  deriving DecidableEq

/-- Lookup of a filename in the `reports` directory, modelled as an
association list from filename to file bytes (`os.path.exists` plus the
read that `FileResponse` performs). -/
def lookupFile : List (Chars × Bytes) → Chars → Option Bytes
  | [], _ => none
  | (n, b) :: rest, fname => if n = fname then some b else lookupFile rest fname

/-- `download_report(filename)`: serves the archived file as
`application/pdf` with the given filename as the suggested download
name, or answers status 404 with body `{"message": "File not found"}`. -/
def download_report (archive : List (Chars × Bytes)) (filename : Chars) :
    Response :=
  match lookupFile archive filename with
  | some content => Response.file (("application/pdf").data) filename content
  | none => Response.json 404 [(("message").data, ("File not found").data)]

/-! ### Input validation (`POST /api/generate`)

FastAPI parses the request body as JSON and pydantic validates it
against the `FarmData` model.  We model the JSON values and the
validation of a single expense/income item, which is what claim C10 is
about.  (Pydantic v1 coercions of numeric strings and booleans to
`float` are not modelled; the claims quantify over numeric inputs.) -/

/-- A JSON value. -/
inductive Json where
  | null
  | bool (b : Bool)
  | num (q : ℚ)
  | str (s : Chars)
  | arr (elems : List Json)
  | obj (fields : List (Chars × Json))

/-- Lookup of a key in a JSON object's field list. -/
def jlookup (key : Chars) : List (Chars × Json) → Option Json
  | [] => none
  | (k, v) :: rest => if k = key then some v else jlookup key rest

/-- Pydantic validation of one `ExpenseItem`: `category` and `date`
must be strings, `amount` must be a number (the `float` field imposes
no sign constraint), `description` is an optional string defaulting to
the empty string. -/
def validateExpenseItem (j : Json) : Option ExpenseItem :=
  match j with
  | Json.obj fields =>
    match jlookup (("category").data) fields, jlookup (("amount").data) fields,
        jlookup (("date").data) fields, jlookup (("description").data) fields with
    | some (Json.str c), some (Json.num a), some (Json.str d), none =>
      some ⟨c, a, d, []⟩
    | some (Json.str c), some (Json.num a), some (Json.str d),
        some (Json.str ds) =>
      some ⟨c, a, d, ds⟩
    | _, _, _, _ => none
  | _ => none

/-- Pydantic validation of one `IncomeItem`: same shape as
`validateExpenseItem`. -/
def validateIncomeItem (j : Json) : Option IncomeItem :=
  match j with
  | Json.obj fields =>
    match jlookup (("category").data) fields, jlookup (("amount").data) fields,
        jlookup (("date").data) fields, jlookup (("description").data) fields with
    | some (Json.str c), some (Json.num a), some (Json.str d), none =>
      some ⟨c, a, d, []⟩
    | some (Json.str c), some (Json.num a), some (Json.str d),
        some (Json.str ds) =>
      some ⟨c, a, d, ds⟩
    | _, _, _, _ => none
  | _ => none

/-! ### Auxiliary predicates on elements -/

/-- Whether an element is a table flowable. -/
def isTable : Element → Bool
  | Element.table _ => true
  | _ => false

/-- Whether an element is an image flowable (the logo). -/
def isImage : Element → Bool
  | Element.image _ => true
  | _ => false

/-! ### Sample inputs used by witnesses and counterexamples -/

/-- The end-to-end sample record of the spec (section 8, property 6). -/
def sampleData : FarmData :=
  ⟨("Ravi Kumar").data, ("Wheat").data, ("Rabi").data, 2, ("2023-11-01").data,
   ("2024-03-15").data, ("Nashik").data, 40,
   [⟨("Seeds").data, 2000, ("2023-11-02").data, []⟩],
   [⟨("Sale").data, 50000, ("2024-03-20").data, []⟩]⟩

/-- A record with no expenses and no incomes. -/
def emptyData : FarmData :=
  ⟨("Asha").data, ("Wheat").data, ("Rabi").data, 1, ("2023-11-01").data,
   ("2024-03-15").data, ("Pune").data, 0, [], []⟩

/-- A record with zero acres but a nonzero expense total. -/
def zeroAcresData : FarmData :=
  ⟨("Asha").data, ("Wheat").data, ("Rabi").data, 0, ("2023-11-01").data,
   ("2024-03-15").data, ("Pune").data, 0,
   [⟨("Seeds").data, 2000, ("2023-11-02").data, []⟩], []⟩

/-- A record whose crop name contains a space. -/
def spaceCropData : FarmData :=
  ⟨("Asha").data, ("Basmati Rice").data, ("Kharif").data, 1, ("2024-06-01").data,
   ("2024-11-01").data, ("Pune").data, 10, [], []⟩

/-! ### Helper lemmas -/

/-- Every character produced by `natToDigitsGo` is a decimal digit. -/
theorem mem_natToDigitsGo {fuel n : Nat} {c : Char}
    (h : c ∈ natToDigitsGo fuel n) : ∃ d, d < 10 ∧ c = digitChar d := by
  induction fuel generalizing n with
  | zero => simp [natToDigitsGo] at h
  | succ fuel ih =>
    rw [natToDigitsGo] at h
    by_cases hn : n = 0
    · simp [hn] at h
    · rw [if_neg hn, List.mem_append] at h
      rcases h with h | h
      · exact ih h
      · exact ⟨n % 10, Nat.mod_lt _ (by norm_num), by simpa using h⟩

/-- `natToDigitsGo` with positive fuel and a positive argument is
nonempty. -/
theorem natToDigitsGo_ne_nil {fuel n : Nat} (hn : n ≠ 0) (hf : fuel ≠ 0) :
    natToDigitsGo fuel n ≠ [] := by
  obtain ⟨m, rfl⟩ := Nat.exists_eq_succ_of_ne_zero hf
  rw [natToDigitsGo, if_neg hn]
  simp

/-- The digit string of a natural number starts with a decimal digit. -/
theorem natToDigits_head (n : Nat) :
    ∃ d tl, natToDigits n = digitChar d :: tl ∧ d < 10 := by
  rw [natToDigits]
  by_cases hn : n = 0
  · exact ⟨0, [], by rw [if_pos hn]; rfl, by norm_num⟩
  · rw [if_neg hn]
    rcases hl : natToDigitsGo n n with _ | ⟨c, tl⟩
    · exact absurd hl (natToDigitsGo_ne_nil hn hn)
    · have hc : c ∈ natToDigitsGo n n := by rw [hl]; exact List.mem_cons_self _ _
      obtain ⟨d, hd, rfl⟩ := mem_natToDigitsGo hc
      exact ⟨d, tl, rfl, hd⟩

/-- The plain amount string starts with a minus sign or a digit. -/
theorem plainAmount_head (q : ℚ) :
    ∃ c rest, plainAmount q = c :: rest ∧
      (c = '-' ∨ ∃ d, d < 10 ∧ c = digitChar d) := by
  rw [plainAmount]
  obtain ⟨d, tl, hnd, hd⟩ := natToDigits_head (Int.toNat ⌊|q|⌋)
  by_cases hq : q < 0
  · rw [if_pos hq]
    exact ⟨'-', _, rfl, Or.inl rfl⟩
  · rw [if_neg hq, hnd]
    exact ⟨digitChar d, _, rfl, Or.inr ⟨d, hd, rfl⟩⟩

/-- The fractional-digit expansion of `0` is empty (any fuel). -/
theorem fracDigitsGo_zero (fuel : Nat) : fracDigitsGo fuel 0 = [] := by
  cases fuel with
  | zero => rfl
  | succ fuel => rw [fracDigitsGo, if_pos rfl]

/-- A filename absent from the directory listing fails the existence
check. -/
theorem lookupFile_eq_none {archive : List (Chars × Bytes)} {fname : Chars}
    (h : fname ∉ archive.map Prod.fst) : lookupFile archive fname = none := by
  induction archive with
  | nil => rfl
  | cons hd tl ih =>
    obtain ⟨n, b⟩ := hd
    rw [List.map_cons, List.mem_cons] at h
    push_neg at h
    rw [lookupFile, if_neg (by simpa using fun hn => h.1 hn.symm)]
    exact ih h.2

/-! ### Claim theorems -/

/-- C1: the composer computes `total_inc` as the sum of the income
amounts, `total_exp` as the sum of the expense amounts and `profit` as
their difference; the summary table built from them is part of every
composed document, and for a record with empty expenses and incomes all
three metrics are `0`. -/
theorem C1_financial_totals (data : FarmData) (timestamp : Chars)
    (logo : Option Chars) :
    total_inc data = (data.incomes.map IncomeItem.amount).sum ∧
    total_exp data = (data.expenses.map ExpenseItem.amount).sum ∧
    profit data = total_inc data - total_exp data ∧
    Element.table (summary_data data) ∈ (create_and_save_pdf data timestamp logo).2 ∧
    (data.expenses = [] → data.incomes = [] →
      total_inc data = 0 ∧ total_exp data = 0 ∧ profit data = 0) := by
  refine ⟨rfl, rfl, rfl, ?_, ?_⟩
  · cases logo <;> simp [create_and_save_pdf]
  · intro he hi
    simp [total_inc, total_exp, profit, he, hi]

/-- C1 witness: the empty record composes with all three metrics `0`. -/
theorem C1_witness :
    emptyData.expenses = [] ∧ emptyData.incomes = [] ∧
    total_inc emptyData = 0 ∧ total_exp emptyData = 0 ∧ profit emptyData = 0 :=
  ⟨rfl, rfl, (C1_financial_totals emptyData [] none).2.2.2.2 rfl rfl⟩

/-- C2: `cost_per_acre` is `0` whenever `total_acres = 0` (no division
is attempted) and equals `total_exp / total_acres` whenever
`total_acres > 0`; the summary table containing it is part of every
composed document. -/
theorem C2_cost_per_acre_guard (data : FarmData) (timestamp : Chars)
    (logo : Option Chars) :
    (data.total_acres = 0 → cost_per_acre data = 0) ∧
    (0 < data.total_acres →
      cost_per_acre data = total_exp data / data.total_acres) ∧
    Element.table (summary_data data) ∈ (create_and_save_pdf data timestamp logo).2 := by
  refine ⟨?_, ?_, ?_⟩
  · intro h; simp [cost_per_acre, h]
  · intro h; rw [cost_per_acre, if_pos h]
  · cases logo <;> simp [create_and_save_pdf]

/-- C2 witness: at zero acres with a 2000 expense the reported
cost-per-acre is `0`, and at two acres it is the quotient. -/
theorem C2_witness :
    (zeroAcresData.total_acres = 0 ∧ cost_per_acre zeroAcresData = 0) ∧
    (0 < sampleData.total_acres ∧
      cost_per_acre sampleData = total_exp sampleData / sampleData.total_acres) :=
  ⟨⟨rfl, (C2_cost_per_acre_guard zeroAcresData [] none).1 rfl⟩,
   ⟨by norm_num [sampleData],
    (C2_cost_per_acre_guard sampleData [] none).2.1 (by norm_num [sampleData])⟩⟩

/-- C3: the chart renderer always hands `ax.pie` a two-slice list; when
the two totals sum to zero it substitutes `[1, 1]` (two equal slices),
otherwise it passes the totals unchanged. -/
theorem C3_chart_slices (income_total expense_total : ℚ) :
    (generate_charts income_total expense_total).length = 2 ∧
    (income_total + expense_total = 0 →
      generate_charts income_total expense_total = [1, 1]) ∧
    (income_total + expense_total ≠ 0 →
      generate_charts income_total expense_total =
        [income_total, expense_total]) := by
  rw [generate_charts]
  simp only [List.sum_cons, List.sum_nil, add_zero]
  by_cases h : income_total + expense_total = 0
  · rw [if_pos h]
    exact ⟨rfl, fun _ => rfl, fun hc => absurd h hc⟩
  · rw [if_neg h]
    exact ⟨rfl, fun hc => absurd hc h, fun _ => rfl⟩

/-- C3 witness: the all-zero input renders two equal slices, and a
nonzero pair passes through unchanged. -/
theorem C3_witness :
    ((0 : ℚ) + 0 = 0 ∧ generate_charts 0 0 = [1, 1]) ∧
    ((50000 : ℚ) + 2000 ≠ 0 ∧ generate_charts 50000 2000 = [50000, 2000]) :=
  ⟨⟨by norm_num, (C3_chart_slices 0 0).2.1 (by norm_num)⟩,
   ⟨by norm_num, (C3_chart_slices 50000 2000).2.2 (by norm_num)⟩⟩

/-- C4 counterexample: a crop name containing a space puts a space into
the generated filename, so the filename is not whitespace-free. -/
theorem C4_counterexample :
    ' ' ∈ make_filename spaceCropData (("20240612_101500").data) := by decide

/-- C4 (amended): the filename is the farmer name with spaces replaced
by underscores, the crop name, the timestamp and `.pdf`; the
farmer-name portion contains no space, and the whole filename contains
no space provided the crop name and the timestamp contain none. -/
theorem C4_filename_format (data : FarmData) (timestamp : Chars) :
    make_filename data timestamp =
      clean_name data ++ '_' :: data.crop_name ++ '_' :: timestamp ++ (".pdf").data ∧
    ' ' ∉ clean_name data ∧
    (' ' ∉ data.crop_name → ' ' ∉ timestamp →
      ' ' ∉ make_filename data timestamp) := by
  have hclean : ' ' ∉ clean_name data := by
    intro h
    rw [clean_name, List.mem_map] at h
    obtain ⟨c, _, hc⟩ := h
    by_cases hsp : c = ' '
    · rw [if_pos hsp] at hc
      exact absurd hc (by decide)
    · rw [if_neg hsp] at hc
      exact hsp hc
  refine ⟨rfl, hclean, ?_⟩
  intro hcrop hts hmem
  rw [make_filename] at hmem
  simp only [List.mem_append, List.mem_cons] at hmem
  rcases hmem with ((h | h) | h) | h
  · exact hclean h
  · rcases h with h | h
    · exact absurd h (by decide)
    · exact hcrop h
  · rcases h with h | h
    · exact absurd h (by decide)
    · exact hts h
  · exact absurd h (by decide)

/-- C4 witness: for the sample record and a well-formed timestamp the
generated filename contains no space. -/
theorem C4_witness :
    ' ' ∉ sampleData.crop_name ∧ ' ' ∉ (("20240612_101500").data) ∧
    ' ' ∉ make_filename sampleData (("20240612_101500").data) :=
  ⟨by decide, by decide,
   (C4_filename_format sampleData (("20240612_101500").data)).2.2
     (by decide) (by decide)⟩

/-- C5: every value cell of the summary table is currency-formatted
(`INR ` prefix, grouping, two decimals), while the per-row amount cells
of the expense and income tables use the plain numeric format, which
never carries the currency prefix. -/
theorem C5_currency_asymmetry (data : FarmData) (timestamp : Chars)
    (logo : Option Chars) :
    Element.table (summary_data data) ∈ (create_and_save_pdf data timestamp logo).2 ∧
    (∀ row ∈ (summary_data data).drop 1, ∃ q : ℚ, row.getD 1 [] = formatINR q) ∧
    (∀ q : ℚ, (formatINR q).take 4 = ("INR ").data) ∧
    (∀ e ∈ data.expenses,
      [e.category, e.date, plainAmount e.amount] ∈ e_data data) ∧
    (∀ i ∈ data.incomes,
      [i.category, i.date, plainAmount i.amount] ∈ i_data data) ∧
    (∀ q : ℚ, (plainAmount q).take 4 ≠ ("INR ").data) := by
  refine ⟨?_, ?_, ?_, ?_, ?_, ?_⟩
  · cases logo <;> simp [create_and_save_pdf]
  · intro row hrow
    simp only [summary_data, List.drop_succ_cons, List.drop_zero,
      List.mem_cons, List.not_mem_nil, or_false] at hrow
    rcases hrow with rfl | rfl | rfl | rfl <;> exact ⟨_, rfl⟩
  · intro q; rfl
  · intro e he
    rw [e_data]
    exact List.mem_cons_of_mem _ (List.mem_map_of_mem _ he)
  · intro i hi
    rw [i_data]
    exact List.mem_cons_of_mem _ (List.mem_map_of_mem _ hi)
  · intro q h
    obtain ⟨c, rest, hpq, hc⟩ := plainAmount_head q
    rw [hpq] at h
    have h4 : List.take 4 (c :: rest) = c :: List.take 3 rest := rfl
    have hINR : ("INR ").data = 'I' :: 'N' :: 'R' :: [' '] := rfl
    rw [h4, hINR] at h
    have hcI : c = 'I' := by injection h
    rcases hc with rfl | ⟨d, hd, rfl⟩
    · exact absurd hcI (by decide)
    · have hno : ∀ d, d < 10 → digitChar d ≠ 'I' := by decide
      exact hno d hd hcI

/-- C5 witness: in the sample record the income summary cell is
currency-formatted and the expense/income rows carry plain amounts. -/
theorem C5_witness :
    (∃ q : ℚ,
      ([("Total Income").data, formatINR (total_inc sampleData)]).getD 1 [] =
        formatINR q) ∧
    [("Seeds").data, ("2023-11-02").data, plainAmount (2000 : ℚ)] ∈
      e_data sampleData ∧
    [("Sale").data, ("2024-03-20").data, plainAmount (50000 : ℚ)] ∈
      i_data sampleData :=
  ⟨(C5_currency_asymmetry sampleData [] none).2.1 _ (by simp [summary_data]),
   (C5_currency_asymmetry sampleData [] none).2.2.2.1
     ⟨("Seeds").data, 2000, ("2023-11-02").data, []⟩ (List.mem_cons_self _ _),
   (C5_currency_asymmetry sampleData [] none).2.2.2.2.1
     ⟨("Sale").data, 50000, ("2024-03-20").data, []⟩ (List.mem_cons_self _ _)⟩

/-- C6: the tables of the composed document are exactly the summary
table, the expense table when the expense list is nonempty, and the
income table when the income list is nonempty (each omitted entirely
when its list is empty); the expense/income tables are a header row
plus one three-cell row per item. -/
theorem C6_tables (data : FarmData) (timestamp : Chars) (logo : Option Chars) :
    (create_and_save_pdf data timestamp logo).2.filter isTable =
      Element.table (summary_data data) ::
        ((if data.expenses = [] then [] else [Element.table (e_data data)]) ++
         (if data.incomes = [] then [] else [Element.table (i_data data)])) ∧
    (e_data data).length = 1 + data.expenses.length ∧
    (i_data data).length = 1 + data.incomes.length ∧
    (∀ r ∈ (e_data data).drop 1, r.length = 3) ∧
    (∀ r ∈ (i_data data).drop 1, r.length = 3) := by
  refine ⟨?_, ?_, ?_, ?_, ?_⟩
  · cases logo <;> by_cases he : data.expenses = [] <;>
      by_cases hi : data.incomes = [] <;>
      simp [create_and_save_pdf, isTable, he, hi]
  · rw [e_data]; simp [Nat.add_comm]
  · rw [i_data]; simp [Nat.add_comm]
  · intro r hr
    simp only [e_data, List.drop_succ_cons, List.drop_zero, List.mem_map] at hr
    obtain ⟨e, _, rfl⟩ := hr
    rfl
  · intro r hr
    simp only [i_data, List.drop_succ_cons, List.drop_zero, List.mem_map] at hr
    obtain ⟨i, _, rfl⟩ := hr
    rfl

/-- C6 witness: the sample record's expense table has a header plus one
three-cell row. -/
theorem C6_witness :
    ([("Seeds").data, ("2023-11-02").data, plainAmount (2000 : ℚ)] :
      List Chars).length = 3 ∧
    (e_data sampleData).length = 1 + sampleData.expenses.length :=
  ⟨(C6_tables sampleData [] none).2.2.2.1 _ (by
      simp only [e_data, List.drop_succ_cons, List.drop_zero]
      exact List.mem_map_of_mem _ (List.mem_cons_self _ _)),
   (C6_tables sampleData [] none).2.1⟩

/-- C9: a logo-loading failure is swallowed: composition with a failed
logo load still returns the same filename and the same element list as
a successful load minus the logo image, and that document contains no
image element at all. -/
theorem C9_logo_swallowed (data : FarmData) (timestamp : Chars) (src : Chars) :
    (create_and_save_pdf data timestamp none).1 =
      (create_and_save_pdf data timestamp (some src)).1 ∧
    (create_and_save_pdf data timestamp (some src)).2 =
      Element.image src :: (create_and_save_pdf data timestamp none).2 ∧
    (create_and_save_pdf data timestamp none).2.countP isImage = 0 := by
  refine ⟨rfl, rfl, ?_⟩
  by_cases he : data.expenses = [] <;> by_cases hi : data.incomes = [] <;>
    simp [create_and_save_pdf, isImage, he, hi]

/-- C7: the listing is a permutation of the stored rows sorted by
descending id, and after inserting record A then record B, the listing
places B's row strictly before A's row. -/
theorem C7_list_all_ordering (db : ReportsDB)
    (fA cA fnA jA tA fB cB fnB jB tB : Chars)
    (db1 db2 : ReportsDB) (rowA rowB : ReportRow)
    (h1 : db1 = (insertReport db fA cA fnA jA tA).1)
    (h2 : db2 = (insertReport db1 fB cB fnB jB tB).1)
    (hA : rowA = ⟨db.nextId, fA, cA, fnA, jA, tA⟩)
    (hB : rowB = ⟨db.nextId + 1, fB, cB, fnB, jB, tB⟩) :
    (get_reports db2).Perm db2.rows ∧
    (get_reports db2).Pairwise (fun a b => b.id ≤ a.id) ∧
    ∃ i j : Fin (get_reports db2).length,
      i < j ∧ (get_reports db2).get i = rowB ∧ (get_reports db2).get j = rowA := by
  have htrans : ∀ a b c : ReportRow, rowDescLe a b → rowDescLe b c → rowDescLe a c := by
    intro a b c hab hbc
    simp only [rowDescLe, decide_eq_true_eq] at hab hbc ⊢
    omega
  have htotal : ∀ a b : ReportRow, rowDescLe a b || rowDescLe b a := by
    intro a b
    simp only [rowDescLe, Bool.or_eq_true, decide_eq_true_eq]
    omega
  have hperm : (get_reports db2).Perm db2.rows := List.mergeSort_perm db2.rows rowDescLe
  have hpairB : (get_reports db2).Pairwise (fun a b => rowDescLe a b) :=
    List.sorted_mergeSort htrans htotal db2.rows
  have hpair : (get_reports db2).Pairwise (fun a b => b.id ≤ a.id) :=
    hpairB.imp (by intro a b h; simpa [rowDescLe] using h)
  refine ⟨hperm, hpair, ?_⟩
  have hrows : db2.rows = db.rows ++ [rowA] ++ [rowB] := by
    subst h1 h2 hA hB; rfl
  have hmemA : rowA ∈ get_reports db2 := by
    rw [get_reports, List.mem_mergeSort, hrows]
    simp
  have hmemB : rowB ∈ get_reports db2 := by
    rw [get_reports, List.mem_mergeSort, hrows]
    simp
  obtain ⟨i, hi⟩ := List.get_of_mem hmemB
  obtain ⟨j, hj⟩ := List.get_of_mem hmemA
  have hij : i < j := by
    rcases lt_trichotomy i j with h | h | h
    · exact h
    · exfalso
      rw [h, hj] at hi
      rw [hA, hB] at hi
      have : db.nextId = db.nextId + 1 := congrArg ReportRow.id hi
      omega
    · exfalso
      have := List.pairwise_iff_get.mp hpair j i h
      rw [hi, hj, hA, hB] at this
      simp only at this
      omega
  exact ⟨i, j, hij, hi, hj⟩

/-- An empty database whose autoincrement counter starts at 1. -/
def dbW0 : ReportsDB := ⟨[], 1⟩

/-- The database after inserting record A. -/
def dbW1 : ReportsDB :=
  (insertReport dbW0 (("A").data) (("Wheat").data) (("a.pdf").data)
    (("ja").data) (("2023-11-01 10:00").data)).1

/-- The database after inserting record A then record B. -/
def dbW2 : ReportsDB :=
  (insertReport dbW1 (("B").data) (("Rice").data) (("b.pdf").data)
    (("jb").data) (("2023-11-01 10:01").data)).1

/-- The row created for record A. -/
def rowWA : ReportRow :=
  ⟨1, ("A").data, ("Wheat").data, ("a.pdf").data, ("ja").data,
   ("2023-11-01 10:00").data⟩

/-- The row created for record B. -/
def rowWB : ReportRow :=
  ⟨2, ("B").data, ("Rice").data, ("b.pdf").data, ("jb").data,
   ("2023-11-01 10:01").data⟩

/-- C7 witness: after inserting A then B into the empty store, the
listing is a descending-id permutation of the rows with B's row before
A's row. -/
theorem C7_witness :
    (get_reports dbW2).Perm dbW2.rows ∧
    (get_reports dbW2).Pairwise (fun a b => b.id ≤ a.id) ∧
    ∃ i j : Fin (get_reports dbW2).length,
      i < j ∧ (get_reports dbW2).get i = rowWB ∧ (get_reports dbW2).get j = rowWA :=
  C7_list_all_ordering dbW0 (("A").data) (("Wheat").data) (("a.pdf").data)
    (("ja").data) (("2023-11-01 10:00").data) (("B").data) (("Rice").data)
    (("b.pdf").data) (("jb").data) (("2023-11-01 10:01").data)
    dbW1 dbW2 rowWA rowWB rfl rfl rfl rfl

/-- C8: requesting a filename absent from the archive yields status 404
with the JSON body `message: File not found`; requesting a stored file
yields a file response with the PDF media type, the requested filename
as the suggested download name and the stored bytes. -/
theorem C8_download_not_found (archive : List (Chars × Bytes)) (filename : Chars) :
    (filename ∉ archive.map Prod.fst →
      download_report archive filename =
        Response.json 404 [(("message").data, ("File not found").data)]) ∧
    (∀ content, lookupFile archive filename = some content →
      download_report archive filename =
        Response.file (("application/pdf").data) filename content) := by
  constructor
  · intro h
    rw [download_report, lookupFile_eq_none h]
  · intro content h
    rw [download_report, h]

/-- A one-file archive used by the C8 witness. -/
def archiveW : List (Chars × Bytes) := [((("r.pdf").data), [37, 80, 68, 70])]

/-- C8 witness: a missing filename gets the 404 JSON body and a stored
filename gets the PDF file response. -/
theorem C8_witness :
    ((("missing.pdf").data) ∉ archiveW.map Prod.fst ∧
      download_report archiveW (("missing.pdf").data) =
        Response.json 404 [(("message").data, ("File not found").data)]) ∧
    (lookupFile archiveW (("r.pdf").data) = some [37, 80, 68, 70] ∧
      download_report archiveW (("r.pdf").data) =
        Response.file (("application/pdf").data) (("r.pdf").data)
          [37, 80, 68, 70]) :=
  ⟨⟨by decide, (C8_download_not_found archiveW _).1 (by decide)⟩,
   ⟨rfl, (C8_download_not_found archiveW _).2 _ rfl⟩⟩

/-- A submitted expense item whose amount is the negative number
-2000. -/
def negAmountJson : Json :=
  Json.obj [(("category").data, Json.str (("Seeds").data)),
            (("amount").data, Json.num (-2000)),
            (("date").data, Json.str (("2023-11-02").data))]

/-- C10 counterexample: validation accepts an item whose amount is
negative, so not every accepted item has a non-negative amount. -/
theorem C10_counterexample :
    validateExpenseItem negAmountJson =
      some ⟨("Seeds").data, -2000, ("2023-11-02").data, []⟩ ∧
    (-2000 : ℚ) < 0 :=
  ⟨rfl, by norm_num⟩

/-- C10 (amended): validation only requires the amount to be a number
(and category/date to be strings); any numeric amount, negative ones
included, is accepted unchanged. -/
theorem C10_amount_sign_unchecked (c d : Chars) (a : ℚ) :
    validateExpenseItem (Json.obj
      [(("category").data, Json.str c), (("amount").data, Json.num a),
       (("date").data, Json.str d)]) = some ⟨c, a, d, []⟩ ∧
    validateIncomeItem (Json.obj
      [(("category").data, Json.str c), (("amount").data, Json.num a),
       (("date").data, Json.str d)]) = some ⟨c, a, d, []⟩ :=
  ⟨rfl, rfl⟩

end GramIQ
